import Mathlib

/-!
Verification of the keyboard-navigation demo application
(`src/demo_app.py`) and of the keyboard dispatch engine it configures.

The dispatch engine itself (`ZoneManager`, `FocusZone`, `KeyAction`,
`KeyboardMode`, the navigation strategies) belongs to the
`cjm-fasthtml-keyboard-navigation` library, whose implementation is not
part of the visible sources; those parts are modelled from the
specification (sections 3, 4 and 7 of the design document).  The demo's
own code — its configuration constants and its list-mutation route
handlers (`simple_toggle`, `dual_add`, `mode_merge`, ...) — is embedded
directly from `src/demo_app.py`.

All definitions are executable and all predicates decidable, so the
theorems can be exercised on concrete inputs.
-/

set_option autoImplicit false

namespace KeyboardNav

/-- Modelled from the spec: the modifier set of a key event or binding,
a subset of `{ctrl, shift, alt, meta}` (section 6).  The Python source
represents this as a `frozenset` of modifier-name strings. -/
structure Modifiers where
  ctrl : Bool := false
  shift : Bool := false
  alt : Bool := false
  metaKey : Bool := false
deriving DecidableEq

/-- Modelled from the spec: a physical key event record
`\x7b key, modifiers \x7d` (section 6). -/
structure KeyEvent where
  key : String
  modifiers : Modifiers := {}
deriving DecidableEq

/-- Modelled from the spec: the movement intents understood by a
navigation strategy (section 4.4). -/
inductive Direction where
  | up
  | down
  | left
  | right
deriving DecidableEq

/-- Modelled from the spec: the navigation-strategy variants
`LinearVertical`, `LinearHorizontal`, `Grid(columns)` and `ScrollOnly`
imported by the demo from the library's `core.navigation` module
(section 3, NavigationStrategy). -/
inductive Navigation where
  | linearVertical
  | linearHorizontal
  | grid (columns : Nat)
  | scrollOnly
deriving DecidableEq

/-- Modelled from the spec: the missing library's pure index-transition
function (section 4.4).  A computed index outside `[0, N)` clamps to the
nearest valid boundary and reports no movement; zero-item zones always
report no movement; intents a topology does not handle leave the index
unchanged. -/
def navigate (nav : Navigation) (i n : Nat) (d : Direction) : Nat :=
  if n = 0 then i
  else
    match nav, d with
    | .linearVertical, .up => i - 1
    | .linearVertical, .down => min (i + 1) (n - 1)
    | .linearVertical, .left => i
    | .linearVertical, .right => i
    | .linearHorizontal, .left => i - 1
    | .linearHorizontal, .right => min (i + 1) (n - 1)
    | .linearHorizontal, .up => i
    | .linearHorizontal, .down => i
    | .grid c, .up => if i < c then i else i - c
    | .grid c, .down => if i + c < n then i + c else i
    | .grid c, .left => if c = 0 ∨ i % c = 0 then i else i - 1
    | .grid c, .right => if c ≠ 0 ∧ (i + 1) % c = 0 then i else min (i + 1) (n - 1)
    | .scrollOnly, _ => i

/-- Modelled from the spec: the library's `FocusZone` configuration
record (section 3, Zone).  The css style-class fields of the Python
constructor (`zone_focus_classes`, `item_focus_classes`) are
presentation-only and omitted. -/
structure FocusZone where
  id : String
  item_selector : String := ""
  navigation : Navigation
  data_attributes : List String := []
  on_focus_change : String := ""
deriving DecidableEq

/-- Modelled from the spec: the library's `KeyAction` declarative
binding (section 3, KeyAction): a key plus modifier set, a trigger
identifier, optional zone/mode restrictions, hint metadata. -/
structure KeyAction where
  key : String
  modifiers : Modifiers := {}
  htmx_trigger : String
  zone_ids : List String := []
  mode_names : List String := []
  description : String := ""
  hint_group : String := ""
  show_in_hints : Bool := true
deriving DecidableEq

/-- Modelled from the spec: the library's `KeyboardMode` record
(section 3, Mode): name, entry/exit keys, optional navigation override,
zone restriction, enter/exit callback identifiers. -/
structure KeyboardMode where
  name : String
  enter_key : String
  exit_key : String
  navigation_override : Option Navigation := none
  on_enter : String := ""
  on_exit : String := ""
  indicator_text : String := ""
  zone_ids : List String := []
deriving DecidableEq

/-- Modelled from the spec: a key-mapping table translating logical
navigation roles to physical keys (section 3, KeyMapping). -/
structure KeyMapping where
  up : List String
  down : List String
  left : List String
  right : List String
  select : List String := []
deriving DecidableEq

/-- Modelled from the spec: the default arrow-key mapping (`ARROW_KEYS`
in the library's `core.key_mapping` module; "defaults to arrow keys if
unspecified"). -/
def ARROW_KEYS : KeyMapping :=
  { up := ["ArrowUp"], down := ["ArrowDown"]
    left := ["ArrowLeft"], right := ["ArrowRight"] }

/-- Modelled from the spec: the `WASD_KEYS` mapping used by the demo's
fourth scenario ("W = Up, S = Down, A = Left, D = Right"). -/
def WASD_KEYS : KeyMapping :=
  { up := ["w"], down := ["s"], left := ["a"], right := ["d"] }

/-- Modelled from the spec: the configuration surface a `ZoneManager`
consumes at construction (section 6): ordered zone list, mode list,
action list, optional key mapping, optional prev/next-zone keys. -/
structure ZoneManagerConfig where
  zones : List FocusZone
  modes : List KeyboardMode := []
  actions : List KeyAction := []
  key_mapping : KeyMapping := ARROW_KEYS
  prev_zone_key : Option String := none
  next_zone_key : Option String := none
  on_mode_change : String := ""
deriving DecidableEq

/-- Identifiers of the zones registered on a manager configuration. -/
def zoneIdsOf (cfg : ZoneManagerConfig) : List String :=
  cfg.zones.map (fun z => z.id)

/-- Names of the modes registered on a manager configuration. -/
def modeNamesOf (cfg : ZoneManagerConfig) : List String :=
  cfg.modes.map (fun m => m.name)

/-- Eligibility of an action in a given zone: an empty `zone_ids`
restriction means the action applies in every zone (section 4.3,
step 5). -/
def eligibleInZone (a : KeyAction) (zid : String) : Bool :=
  a.zone_ids.isEmpty || a.zone_ids.contains zid

/-- Eligibility of an action under a given active-mode state: `none`
mode matches only actions with no mode restriction; an active mode
matches unrestricted actions and actions naming that mode
(section 4.3, step 5). -/
def eligibleInMode (a : KeyAction) (m : Option String) : Bool :=
  match m with
  | none => a.mode_names.isEmpty
  | some mn => a.mode_names.isEmpty || a.mode_names.contains mn

/-- Two actions can be simultaneously eligible in some zone of the
manager. -/
def zonesOverlap (cfg : ZoneManagerConfig) (a b : KeyAction) : Bool :=
  cfg.zones.any (fun z => eligibleInZone a z.id && eligibleInZone b z.id)

/-- Two actions can be simultaneously eligible under some active-mode
state of the manager (no mode, or one of the registered modes). -/
def modesOverlap (cfg : ZoneManagerConfig) (a b : KeyAction) : Bool :=
  (none :: cfg.modes.map (fun m => some m.name)).any
    (fun m => eligibleInMode a m && eligibleInMode b m)

/-- Modelled from the spec: the no-ambiguous-binding invariant
(section 3, KeyAction): two actions conflict when they claim the same
(key, modifier-set) pair while both eligible in the same zone and mode. -/
def conflicting (cfg : ZoneManagerConfig) (a b : KeyAction) : Bool :=
  decide (a.key = b.key) && decide (a.modifiers = b.modifiers)
    && zonesOverlap cfg a b && modesOverlap cfg a b

/-- Some pair of distinct registered actions (by position) conflicts. -/
def anyConflict (cfg : ZoneManagerConfig) : List KeyAction → Bool
  | [] => false
  | a :: rest => rest.any (conflicting cfg a) || anyConflict cfg rest

/-- The manager configuration contains an ambiguous key binding. -/
def hasAmbiguousBinding (cfg : ZoneManagerConfig) : Bool :=
  anyConflict cfg cfg.actions

/-- Every zone reference in an action names a registered zone. -/
def actionZoneRefsOk (cfg : ZoneManagerConfig) : Bool :=
  cfg.actions.all (fun a => a.zone_ids.all (fun z => decide (z ∈ zoneIdsOf cfg)))

/-- Every mode reference in an action names a registered mode. -/
def actionModeRefsOk (cfg : ZoneManagerConfig) : Bool :=
  cfg.actions.all (fun a => a.mode_names.all (fun m => decide (m ∈ modeNamesOf cfg)))

/-- Every zone reference in a mode names a registered zone. -/
def modeZoneRefsOk (cfg : ZoneManagerConfig) : Bool :=
  cfg.modes.all (fun md => md.zone_ids.all (fun z => decide (z ∈ zoneIdsOf cfg)))

/-- Modelled from the spec: the construction-time configuration error
taxonomy (section 7): duplicate/ambiguous key bindings and unknown
zone/mode references in an action or mode definition. -/
inductive ConfigurationError where
  | unknownZoneRef
  | unknownModeRef
  | ambiguousBinding
deriving DecidableEq

/-- Modelled from the spec: `ZoneManager` construction with eager
validation (section 7): construction fails with a `ConfigurationError`
on any unknown zone/mode reference or ambiguous binding, so the engine
is never built with an invalid configuration. -/
def mkZoneManager (cfg : ZoneManagerConfig) :
    Except ConfigurationError ZoneManagerConfig :=
  if actionZoneRefsOk cfg = false then .error .unknownZoneRef
  else if actionModeRefsOk cfg = false then .error .unknownModeRef
  else if modeZoneRefsOk cfg = false then .error .unknownZoneRef
  else if hasAmbiguousBinding cfg then .error .ambiguousBinding
  else .ok cfg

/-- Modelled from the spec: the mutable per-manager runtime state: index
of the focused zone, focused item index inside it, and the active mode
(sections 3, 4.1, 4.2). -/
structure ManagerState where
  focusedZone : Nat := 0
  focusedItem : Nat := 0
  activeMode : Option String := none
deriving DecidableEq

/-- Identifier of the currently focused zone, if any. -/
def focusedZoneId (cfg : ZoneManagerConfig) (s : ManagerState) : Option String :=
  (cfg.zones[s.focusedZone]?).map (fun z => z.id)

/-- Modelled from the spec: `nextZone()` cycles forward through the
zone order with wraparound disabled at the boundary (section 4.1):
at the last zone it is a no-op, not an error. -/
def nextZone (cfg : ZoneManagerConfig) (s : ManagerState) : ManagerState :=
  if s.focusedZone + 1 < cfg.zones.length then
    { s with focusedZone := s.focusedZone + 1 }
  else s

/-- Modelled from the spec: `prevZone()` cycles backward with
wraparound disabled at the boundary (section 4.1). -/
def prevZone (cfg : ZoneManagerConfig) (s : ManagerState) : ManagerState :=
  if 0 < s.focusedZone then { s with focusedZone := s.focusedZone - 1 }
  else s

/-- Modelled from the spec: handling of the optional prev/next-zone key
overrides (section 6): an event whose key equals the configured
next-zone (resp. prev-zone) key moves focus to the next (resp.
previous) zone; other events are not zone-switch events. -/
def zoneSwitch (cfg : ZoneManagerConfig) (s : ManagerState) (e : KeyEvent) :
    Option ManagerState :=
  if cfg.next_zone_key = some e.key then some (nextZone cfg s)
  else if cfg.prev_zone_key = some e.key then some (prevZone cfg s)
  else none

/-- Modelled from the spec: the mode-controller error taxonomy
(sections 4.2 and 7). -/
inductive ModeError where
  | unknownMode
  | modeAlreadyActive
  | zoneRestricted
  | noActiveMode
deriving DecidableEq

/-- The registered mode with the given name, if any. -/
def findMode (cfg : ZoneManagerConfig) (name : String) : Option KeyboardMode :=
  cfg.modes.find? (fun m => m.name = name)

/-- A mode may be entered while the focused zone is within its
allowed-zone set, or when it is unrestricted (section 4.2). -/
def modeAllowed (cfg : ZoneManagerConfig) (md : KeyboardMode)
    (s : ManagerState) : Bool :=
  md.zone_ids.isEmpty ||
    (match focusedZoneId cfg s with
     | some zid => md.zone_ids.contains zid
     | none => false)

/-- Modelled from the spec: `enterMode(name)` (section 4.2): succeeds
only from the no-mode state with the focused zone allowed; re-entering
the already-active mode is an idempotent no-op; unknown names and
disallowed zones fail and leave state unchanged. -/
def enterMode (cfg : ZoneManagerConfig) (s : ManagerState) (name : String) :
    Except ModeError ManagerState :=
  match findMode cfg name with
  | none => .error .unknownMode
  | some md =>
    if s.activeMode = some name then .ok s
    else
      match s.activeMode with
      | some _ => .error .modeAlreadyActive
      | none =>
        if modeAllowed cfg md s then .ok { s with activeMode := some name }
        else .error .zoneRestricted

/-- Modelled from the spec: `exitMode()` (section 4.2): succeeds only
if a mode is active, transitioning back to the no-mode state. -/
def exitMode (cfg : ZoneManagerConfig) (s : ManagerState) :
    Except ModeError ManagerState :=
  match s.activeMode with
  | none => .error .noActiveMode
  | some _ => .ok { s with activeMode := none }

/-- The manager state observed after calling `exitMode`: on failure the
caller keeps the unchanged prior state (atomicity on error). -/
def exitModeRun (cfg : ZoneManagerConfig) (s : ManagerState) : ManagerState :=
  match exitMode cfg s with
  | .ok s' => s'
  | .error _ => s

/-- Modelled from the spec: the focused zone's effective navigation
strategy — the active mode's override when one is active and defines
one, else the zone's own strategy (section 4.3, step 6). -/
def effectiveNavigation (cfg : ZoneManagerConfig) (s : ManagerState) :
    Option Navigation :=
  match cfg.zones[s.focusedZone]? with
  | none => none
  | some z =>
    match s.activeMode with
    | none => some z.navigation
    | some name =>
      match findMode cfg name with
      | some md => some (md.navigation_override.getD z.navigation)
      | none => some z.navigation

/-- An action binding matches an event exactly: equal key and equal
modifier set (section 4.3, step 5). -/
def actionMatches (a : KeyAction) (e : KeyEvent) : Bool :=
  decide (a.key = e.key) && decide (a.modifiers = e.modifiers)

/-- An action is eligible under the current zone and mode
(section 4.3, step 5). -/
def actionEligible (cfg : ZoneManagerConfig) (s : ManagerState)
    (a : KeyAction) : Bool :=
  (match focusedZoneId cfg s with
   | some zid => eligibleInZone a zid
   | none => a.zone_ids.isEmpty) && eligibleInMode a s.activeMode

/-- Modelled from the spec: the Key Resolver's action scan (section
4.3, step 5): among the registered actions eligible under the current
zone and mode, the first whose (key, modifier-set) pair exactly matches
the event, registration order breaking ties. -/
def resolveAction (cfg : ZoneManagerConfig) (s : ManagerState) (e : KeyEvent) :
    Option KeyAction :=
  cfg.actions.find? (fun a => actionEligible cfg s a && actionMatches a e)

/-! Demo configuration constants, transcribed from `src/demo_app.py`.
The css style-class constructor arguments are presentation-only and
omitted, as noted on `FocusZone`. -/

/-- Zone of demo 1 (`src/demo_app.py` lines 158-165). -/
def simple_zone : FocusZone :=
  { id := "simple-list"
    item_selector := "li[data-item-id]"
    navigation := .linearVertical
    data_attributes := ["item-id"] }

/-- Fourth action of demo 1 (`src/demo_app.py` lines 187-193): select
all, bound to `a` with the `ctrl` modifier. -/
def select_all_action : KeyAction :=
  { key := "a"
    modifiers := { ctrl := true }
    htmx_trigger := "simple-select-all-btn"
    description := "Select all"
    hint_group := "Selection" }

/-- Actions of demo 1 (`src/demo_app.py` lines 167-194). -/
def simple_actions : List KeyAction :=
  [ { key := " "
      htmx_trigger := "simple-toggle-btn"
      description := "Toggle selection"
      hint_group := "Selection" },
    { key := "Enter"
      htmx_trigger := "simple-toggle-btn"
      description := "Toggle selection"
      hint_group := "Selection"
      show_in_hints := false },
    { key := "Delete"
      htmx_trigger := "simple-delete-btn"
      description := "Remove item"
      hint_group := "Actions" },
    select_all_action ]

/-- Manager configuration of demo 1 (`src/demo_app.py` lines 196-199). -/
def simple_manager : ZoneManagerConfig :=
  { zones := [simple_zone], actions := simple_actions }

/-- Source-panel zone of demo 2 (`src/demo_app.py` lines 205-213). -/
def source_zone : FocusZone :=
  { id := "source-panel"
    item_selector := "li[data-item-id]"
    navigation := .linearVertical
    data_attributes := ["item-id"]
    on_focus_change := "onSourceFocusChange" }

/-- Queue-panel zone of demo 2 (`src/demo_app.py` lines 215-223). -/
def queue_zone : FocusZone :=
  { id := "queue-panel"
    item_selector := "li[data-item-id]"
    navigation := .linearVertical
    data_attributes := ["item-id"]
    on_focus_change := "onQueueFocusChange" }

/-- Actions of demo 2 (`src/demo_app.py` lines 225-256). -/
def dual_actions : List KeyAction :=
  [ { key := " "
      htmx_trigger := "dual-add-btn"
      zone_ids := ["source-panel"]
      description := "Add to queue"
      hint_group := "Queue" },
    { key := "Delete"
      htmx_trigger := "dual-remove-btn"
      zone_ids := ["queue-panel"]
      description := "Remove from queue"
      hint_group := "Queue" },
    { key := "ArrowUp"
      modifiers := { shift := true }
      htmx_trigger := "dual-move-up-btn"
      zone_ids := ["queue-panel"]
      description := "Move up in queue"
      hint_group := "Reorder" },
    { key := "ArrowDown"
      modifiers := { shift := true }
      htmx_trigger := "dual-move-down-btn"
      zone_ids := ["queue-panel"]
      description := "Move down in queue"
      hint_group := "Reorder" } ]

/-- Manager configuration of demo 2 (`src/demo_app.py` lines 258-263). -/
def dual_manager : ZoneManagerConfig :=
  { zones := [source_zone, queue_zone]
    actions := dual_actions
    prev_zone_key := some "ArrowLeft"
    next_zone_key := some "ArrowRight" }

/-- Zone of demo 3 (`src/demo_app.py` lines 269-276). -/
def segment_zone : FocusZone :=
  { id := "segment-list"
    item_selector := "div[data-segment-id]"
    navigation := .linearVertical
    data_attributes := ["segment-id"] }

/-- Split mode of demo 3 (`src/demo_app.py` lines 282-291): carries a
`ScrollOnly` navigation override because caret tracking is not
implemented. -/
def split_mode : KeyboardMode :=
  { name := "split"
    enter_key := "Enter"
    exit_key := "Escape"
    navigation_override := some .scrollOnly
    on_enter := "enterSplitMode"
    on_exit := "exitSplitMode"
    indicator_text := "Split Mode"
    zone_ids := ["segment-list"] }

/-- First action of demo 3 (`src/demo_app.py` lines 294-300): restricted
to a mode named "navigation". -/
def merge_action : KeyAction :=
  { key := "Backspace"
    htmx_trigger := "mode-merge-btn"
    mode_names := ["navigation"]
    description := "Merge with previous"
    hint_group := "Editing" }

/-- Second action of demo 3 (`src/demo_app.py` lines 301-307):
restricted to the "split" mode. -/
def split_action : KeyAction :=
  { key := "Enter"
    htmx_trigger := "mode-split-btn"
    mode_names := ["split"]
    description := "Split at caret"
    hint_group := "Editing" }

/-- Actions of demo 3 (`src/demo_app.py` lines 293-308). -/
def mode_actions : List KeyAction := [merge_action, split_action]

/-- Manager configuration of demo 3 (`src/demo_app.py` lines 310-315):
its only registered mode is "split". -/
def mode_manager : ZoneManagerConfig :=
  { zones := [segment_zone]
    modes := [split_mode]
    actions := mode_actions
    on_mode_change := "onModeChange" }

/-- Zone of demo 4 (`src/demo_app.py` lines 321-328). -/
def wasd_zone : FocusZone :=
  { id := "wasd-list"
    item_selector := "li[data-item-id]"
    navigation := .linearVertical
    data_attributes := ["item-id"] }

/-- Actions of demo 4 (`src/demo_app.py` lines 330-337). -/
def wasd_actions : List KeyAction :=
  [ { key := "f"
      htmx_trigger := "wasd-action-btn"
      description := "Interact"
      hint_group := "Actions" } ]

/-- Manager configuration of demo 4 (`src/demo_app.py` lines 339-343). -/
def wasd_manager : ZoneManagerConfig :=
  { zones := [wasd_zone]
    actions := wasd_actions
    key_mapping := WASD_KEYS }

/-! Demo state and the list-mutation route handlers, embedded from
`src/demo_app.py`. -/

/-- A demo data item (`src/demo_app.py` lines 115-138): a dict with an
`id`, a `name` and, for demo 1, a `type`. -/
structure Item where
  id : String
  name : String
  type : String := ""
deriving DecidableEq

/-- The `DemoState` dataclass (`src/demo_app.py` lines 107-112). -/
structure DemoState where
  items : List Item := []
  selected_indices : Finset String := ∅
  queue : List Item := []
deriving DecidableEq

/-- The `simple_list_state` initial value (`src/demo_app.py`
lines 115-126). -/
def simple_list_state : DemoState :=
  { items :=
      [ ⟨"1", "Document A", "pdf"⟩, ⟨"2", "Image B", "png"⟩,
        ⟨"3", "Spreadsheet C", "xlsx"⟩, ⟨"4", "Code File D", "py"⟩,
        ⟨"5", "Archive E", "zip"⟩, ⟨"6", "Text File F", "txt"⟩,
        ⟨"7", "Database G", "db"⟩, ⟨"8", "Config H", "json"⟩ ] }

/-- The `dual_panel_state` initial value (`src/demo_app.py`
lines 129-138). -/
def dual_panel_state : DemoState :=
  { items :=
      [ ⟨"src-1", "Source Item 1", ""⟩, ⟨"src-2", "Source Item 2", ""⟩,
        ⟨"src-3", "Source Item 3", ""⟩, ⟨"src-4", "Source Item 4", ""⟩,
        ⟨"src-5", "Source Item 5", ""⟩ ]
    queue := [] }

/-- A dual-panel state whose queue already holds the first source item,
used to exercise the already-queued branch of `dual_add`. -/
def dual_state_queued : DemoState :=
  { dual_panel_state with queue := [⟨"src-1", "Source Item 1", ""⟩] }

/-- The `simple_toggle` route handler (`src/demo_app.py` lines 654-662):
with a truthy (non-empty) `item_id`, discard it from the selection if
present, else add it; the items list is untouched. -/
def simple_toggle (s : DemoState) (item_id : String) : DemoState :=
  if item_id = "" then s
  else if item_id ∈ s.selected_indices then
    { s with selected_indices := s.selected_indices.erase item_id }
  else
    { s with selected_indices := insert item_id s.selected_indices }

/-- The `dual_add` route handler (`src/demo_app.py` lines 782-789):
with a truthy `item_id`, look up the first source item with that id and
append it to the queue unless it is already present (full-record
membership, as Python's `in` on dicts). -/
def dual_add (s : DemoState) (item_id : String) : DemoState :=
  if item_id = "" then s
  else
    match s.items.find? (fun i => i.id = item_id) with
    | none => s
    | some item =>
      if item ∈ s.queue then s
      else { s with queue := s.queue ++ [item] }

/-- A text segment of demo 3 (`src/demo_app.py` lines 141-150): a dict
with an `id` and a `text`. -/
structure Segment where
  id : String
  text : String
deriving DecidableEq

/-- The segment-related part of `mode_demo_state` (`src/demo_app.py`
lines 141-150): the segments list and the active segment index
(`mode` and `caret_position` are untouched by `mode_merge`). -/
structure ModeState where
  segments : List Segment
  active_segment : Nat
deriving DecidableEq

/-- The `segments` initial value of `mode_demo_state`
(`src/demo_app.py` lines 142-146). -/
def demo_segments : List Segment :=
  [ ⟨"seg-1", "The art of war is of vital importance to the state."⟩,
    ⟨"seg-2", "It is a matter of life and death."⟩,
    ⟨"seg-3", "A road either to safety or to ruin."⟩ ]

/-- Loop body of `mode_merge` over the tail of the segments list:
`prev` is the element just before the current head, so the head sits at
a positive absolute index; the first head whose id equals `segment_id`
is merged into `prev` (old text of `prev`, a space, old text of the
head, keeping `prev`'s id) and the returned number is `prev`'s index
within the walked suffix. -/
def mode_merge_aux (prev : Segment) (segment_id : String) :
    List Segment → Option (List Segment × Nat)
  | [] => none
  | s :: rest =>
    if s.id = segment_id then
      some (⟨prev.id, prev.text ++ " " ++ s.text⟩ :: rest, 0)
    else
      (mode_merge_aux s segment_id rest).map
        (fun r => (prev :: r.1, r.2 + 1))

/-- The `mode_merge` route handler (`src/demo_app.py` lines 917-928):
scan the segments with their indices; at the first index `i > 0` whose
segment id equals `segment_id`, concatenate segment `i`'s text onto
segment `i-1`'s (with a single space), pop segment `i` and set the
active segment to `max 0 (i-1)`; otherwise leave the state unchanged.
Note the `i > 0` guard skips a match at index 0 without stopping the
scan. -/
def mode_merge (ms : ModeState) (segment_id : String) : ModeState :=
  match ms.segments with
  | [] => ms
  | s0 :: rest =>
    match mode_merge_aux s0 segment_id rest with
    | none => ms
    | some (l, j) => ⟨l, j⟩

/-! Specification-side helpers used to state the properties of
`mode_merge`. -/

/-- Position of the first segment in the list whose id equals `sid`. -/
def firstMatch (sid : String) : List Segment → Option Nat
  | [] => none
  | s :: rest =>
    if s.id = sid then some 0
    else (firstMatch sid rest).map (fun j => j + 1)

/-- Position of the first segment at positive index whose id equals
`sid` — the index `mode_merge`'s loop merges at, when it exists. -/
def firstMatchPos (segs : List Segment) (sid : String) : Option Nat :=
  match segs with
  | [] => none
  | _ :: rest => (firstMatch sid rest).map (fun j => j + 1)

/-- The segments list after merging segments `i-1` and `i`: the prefix
before `i-1`, one segment keeping `i-1`'s id whose text is `i-1`'s text,
a space, then `i`'s text, and the suffix after `i`. -/
def mergeAtSpec (segs : List Segment) (i : Nat) : List Segment :=
  segs.take (i - 1) ++
    ((segs[i-1]?).bind (fun p =>
      (segs[i]?).map (fun c => Segment.mk p.id (p.text ++ " " ++ c.text)))).toList ++
    segs.drop (i + 1)

/-! Theorems settling the claims. -/

/-- Claim C2: for every ZoneManager constructed in the demo
(`simple_manager`, `dual_manager`, `mode_manager`, `wasd_manager`), no
two registered actions claim the same (key, modifier-set) pair while
both eligible in the same zone and mode: the configured action lists
satisfy the manager's no-ambiguous-binding invariant. -/
theorem demo_managers_no_ambiguous_binding :
    hasAmbiguousBinding simple_manager = false ∧
    hasAmbiguousBinding dual_manager = false ∧
    hasAmbiguousBinding mode_manager = false ∧
    hasAmbiguousBinding wasd_manager = false := by
  decide

/-- Claim C3: in a linear-vertical zone of item count `N > 1`, resolving
the "down" intent from a valid index `i < N - 1` yields `i + 1`, and
from `i = N - 1` yields `i` itself — clamped at the boundary, reported
as no movement rather than as an error. -/
theorem linear_vertical_down (n i : Nat) (hn : 1 < n) (hi : i < n) :
    navigate .linearVertical i n .down = if i < n - 1 then i + 1 else i := by
  match n, hn with
  | m + 2, _ =>
    simp only [navigate, Nat.add_eq_zero, and_false, if_false, reduceCtorEq,
      Nat.min_def]
    split <;> split <;> omega

/-- Concrete instances of `linear_vertical_down`: in a zone of 8 items
(the size of demo 1's list), "down" from index 3 moves to index 4, and
"down" from the last index 7 stays at 7. -/
theorem linear_vertical_down_witness :
    (1 < 8 ∧ 3 < 8 ∧ navigate .linearVertical 3 8 .down = 4) ∧
    (1 < 8 ∧ 7 < 8 ∧ navigate .linearVertical 7 8 .down = 7) := by
  refine ⟨⟨by decide, by decide, ?_⟩, ⟨by decide, by decide, ?_⟩⟩
  · have h := linear_vertical_down 8 3 (by decide) (by decide)
    simpa using h
  · have h := linear_vertical_down 8 7 (by decide) (by decide)
    simpa using h

/-- Claim C4: on `dual_manager` (zones "source-panel", "queue-panel" in
order, next-zone key `ArrowRight`, prev-zone key `ArrowLeft`), with
focus on the first zone an `ArrowRight` event moves focus to
"queue-panel"; a further `ArrowRight` with focus on the last zone is a
no-op (focus stays, no error), and symmetrically `ArrowLeft` on the
first zone is a no-op: wraparound is disabled at the boundaries. -/
theorem dual_manager_zone_cycling_no_wraparound :
    dual_manager.next_zone_key = some "ArrowRight" ∧
    dual_manager.prev_zone_key = some "ArrowLeft" ∧
    focusedZoneId dual_manager ⟨0, 0, none⟩ = some "source-panel" ∧
    zoneSwitch dual_manager ⟨0, 0, none⟩ { key := "ArrowRight" } =
      some ⟨1, 0, none⟩ ∧
    focusedZoneId dual_manager ⟨1, 0, none⟩ = some "queue-panel" ∧
    zoneSwitch dual_manager ⟨1, 0, none⟩ { key := "ArrowRight" } =
      some ⟨1, 0, none⟩ ∧
    zoneSwitch dual_manager ⟨0, 0, none⟩ { key := "ArrowLeft" } =
      some ⟨0, 0, none⟩ := by
  decide

/-- Claim C6: in every manager state with no active mode, `exitMode` is
rejected rather than succeeding, and the state observed after the
rejected call is the state before it (atomicity on error). -/
theorem exit_mode_no_active_rejected (cfg : ZoneManagerConfig)
    (s : ManagerState) (h : s.activeMode = none) :
    exitMode cfg s = .error .noActiveMode ∧ exitModeRun cfg s = s := by
  simp [exitMode, exitModeRun, h]

/-- Concrete instance of `exit_mode_no_active_rejected`: on
`mode_manager`'s initial state (no active mode), `exitMode` errors and
the observed state is unchanged. -/
theorem exit_mode_no_active_rejected_witness :
    (⟨0, 0, none⟩ : ManagerState).activeMode = none ∧
    exitMode mode_manager ⟨0, 0, none⟩ = .error .noActiveMode ∧
    exitModeRun mode_manager ⟨0, 0, none⟩ = ⟨0, 0, none⟩ :=
  ⟨rfl,
    (exit_mode_no_active_rejected mode_manager ⟨0, 0, none⟩ rfl).1,
    (exit_mode_no_active_rejected mode_manager ⟨0, 0, none⟩ rfl).2⟩

/-- Claim C1: constructing a ZoneManager whose action list contains an
action with a `mode_names` entry naming a mode not registered on that
manager fails eagerly at construction time with a `ConfigurationError`,
so the engine is never built with that configuration.  The witness
instantiates this at `mode_manager`, whose `merge_action` names the
unregistered mode "navigation" while the only registered mode is
"split". -/
theorem unknown_mode_ref_fails_construction (cfg : ZoneManagerConfig)
    (a : KeyAction) (m : String) (ha : a ∈ cfg.actions)
    (hm : m ∈ a.mode_names) (hn : m ∉ modeNamesOf cfg) :
    ∃ e, mkZoneManager cfg = .error e := by
  have hfalse : actionModeRefsOk cfg = false := by
    cases hval : actionModeRefsOk cfg
    · rfl
    · rw [actionModeRefsOk, List.all_eq_true] at hval
      have h2 := hval a ha
      rw [List.all_eq_true] at h2
      exact absurd (of_decide_eq_true (h2 m hm)) hn
  cases hz : actionZoneRefsOk cfg
  · exact ⟨.unknownZoneRef, by simp [mkZoneManager, hz]⟩
  · exact ⟨.unknownModeRef, by simp [mkZoneManager, hz, hfalse]⟩

/-- Concrete instance of `unknown_mode_ref_fails_construction`:
`mode_manager`'s action `merge_action` names the mode "navigation",
which is not registered (the only registered mode is "split"), so
`mkZoneManager mode_manager` fails with a `ConfigurationError`. -/
theorem unknown_mode_ref_fails_construction_witness :
    merge_action ∈ mode_manager.actions ∧
    "navigation" ∈ merge_action.mode_names ∧
    "navigation" ∉ modeNamesOf mode_manager ∧
    ∃ e, mkZoneManager mode_manager = .error e :=
  ⟨by decide, by decide, by decide,
    unknown_mode_ref_fails_construction mode_manager merge_action
      "navigation" (by decide) (by decide) (by decide)⟩

/-- Claim C5: from every manager state with no active mode, entering a
mode that succeeds and then exiting returns the active-mode state and
the effective navigation strategy exactly to their pre-entry values —
including for modes carrying a `navigation_override`, as `split_mode`
does. -/
theorem enter_exit_mode_round_trip (cfg : ZoneManagerConfig)
    (s s' : ManagerState) (name : String) (h0 : s.activeMode = none)
    (h1 : enterMode cfg s name = .ok s') :
    ∃ s'', exitMode cfg s' = .ok s'' ∧
      s''.activeMode = s.activeMode ∧
      effectiveNavigation cfg s'' = effectiveNavigation cfg s := by
  obtain ⟨fz, fi, am⟩ := s
  simp only at h0
  subst h0
  cases hf : findMode cfg name with
  | none => simp [enterMode, hf] at h1
  | some md =>
    simp only [enterMode, hf] at h1
    by_cases hma : modeAllowed cfg md ⟨fz, fi, none⟩
    · simp [hma] at h1
      exact ⟨⟨fz, fi, none⟩, by simp [exitMode, ← h1], rfl, rfl⟩
    · simp [hma] at h1

/-- Concrete instance of `enter_exit_mode_round_trip`: on
`mode_manager`, entering the "split" mode (which overrides navigation
with `ScrollOnly`) from the initial no-mode state and exiting restores
the no-mode state and the zone's own navigation strategy. -/
theorem enter_exit_mode_round_trip_witness :
    (⟨0, 0, none⟩ : ManagerState).activeMode = none ∧
    enterMode mode_manager ⟨0, 0, none⟩ "split" =
      .ok ⟨0, 0, some "split"⟩ ∧
    ∃ s'', exitMode mode_manager ⟨0, 0, some "split"⟩ = .ok s'' ∧
      s''.activeMode = (⟨0, 0, none⟩ : ManagerState).activeMode ∧
      effectiveNavigation mode_manager s'' =
        effectiveNavigation mode_manager ⟨0, 0, none⟩ :=
  ⟨rfl, by rfl,
    enter_exit_mode_round_trip mode_manager ⟨0, 0, none⟩
      ⟨0, 0, some "split"⟩ "split" rfl (by rfl)⟩

/-- Claim C7: key resolution requires an exact modifier-set match
between the event and an action binding: an action whose modifier set
differs from the event's is never the action returned by the resolver's
scan.  The witness instantiates this with a plain-`a` event against the
ctrl+`a` action registered in `simple_actions`. -/
theorem resolve_requires_exact_modifier_match (cfg : ZoneManagerConfig)
    (s : ManagerState) (e : KeyEvent) (a : KeyAction)
    (h : a.modifiers ≠ e.modifiers) :
    resolveAction cfg s e ≠ some a := by
  intro hsome
  have hp := List.find?_some hsome
  simp only [actionMatches, Bool.and_eq_true, decide_eq_true_eq] at hp
  exact h hp.2.2

/-- Concrete instance of `resolve_requires_exact_modifier_match`: the
event `a` with no modifiers does not resolve to `simple_manager`'s
select-all action, which is bound to ctrl+`a`. -/
theorem resolve_requires_exact_modifier_match_witness :
    select_all_action.modifiers ≠ ({ key := "a" } : KeyEvent).modifiers ∧
    resolveAction simple_manager ⟨0, 0, none⟩ { key := "a" } ≠
      some select_all_action :=
  ⟨by decide,
    resolve_requires_exact_modifier_match simple_manager ⟨0, 0, none⟩
      { key := "a" } select_all_action (by decide)⟩

/-- Claim C9: `simple_toggle` is an involution on the selection state:
applying it twice with the same `item_id` returns `selected_indices` to
its original value, a single application never changes the items list,
and with an empty `item_id` it changes nothing. -/
theorem simple_toggle_involution (s : DemoState) (item_id : String) :
    (simple_toggle (simple_toggle s item_id) item_id).selected_indices =
      s.selected_indices ∧
    (simple_toggle s item_id).items = s.items ∧
    simple_toggle s "" = s := by
  refine ⟨?_, ?_, by simp [simple_toggle]⟩
  · by_cases he : item_id = ""
    · subst he; simp [simple_toggle]
    · by_cases hm : item_id ∈ s.selected_indices
      · simp [simple_toggle, he, hm, Finset.insert_erase hm]
      · simp [simple_toggle, he, hm, Finset.erase_insert hm]
  · by_cases he : item_id = ""
    · subst he; simp [simple_toggle]
    · by_cases hm : item_id ∈ s.selected_indices <;>
        simp [simple_toggle, he, hm]

/-- Claim C10: `dual_add` preserves queue uniqueness and source
contents: a duplicate-free queue stays duplicate-free; when `item_id`
names no source item, or the named item is already in the queue, the
state is unchanged; and the source items list is never modified. -/
theorem dual_add_preserves_queue_invariants (s : DemoState)
    (item_id : String) :
    (s.queue.Nodup → (dual_add s item_id).queue.Nodup) ∧
    ((∀ it ∈ s.items, it.id ≠ item_id) → dual_add s item_id = s) ∧
    (∀ it, s.items.find? (fun i => i.id = item_id) = some it →
      it ∈ s.queue → dual_add s item_id = s) ∧
    (dual_add s item_id).items = s.items := by
  by_cases he : item_id = ""
  · subst he
    exact ⟨fun h => h, fun _ => by simp [dual_add],
      fun it _ _ => by simp [dual_add], by simp [dual_add]⟩
  · cases hfind : s.items.find? (fun i => i.id = item_id) with
    | none =>
      refine ⟨fun h => ?_, fun _ => ?_, fun it hit _ => ?_, ?_⟩
      · simpa [dual_add, he, hfind] using h
      · simp [dual_add, he, hfind]
      · simp [dual_add, he, hfind]
      · simp [dual_add, he, hfind]
    | some item =>
      have hmem := List.mem_of_find?_eq_some hfind
      have hid : item.id = item_id := by
        have := List.find?_some hfind
        simpa using this
      by_cases hq : item ∈ s.queue
      · refine ⟨fun h => ?_, fun hnone => ?_, fun it hit _ => ?_, ?_⟩
        · simpa [dual_add, he, hfind, hq] using h
        · exact absurd hid (hnone item hmem)
        · simp [dual_add, he, hfind, hq]
        · simp [dual_add, he, hfind, hq]
      · refine ⟨fun h => ?_, fun hnone => ?_, fun it hit hitq => ?_, ?_⟩
        · simp only [dual_add, he, hfind, hq, if_false, if_neg]
          simpa [List.nodup_append, hq] using h
        · exact absurd hid (hnone item hmem)
        · cases hit
          exact absurd hitq hq
        · simp [dual_add, he, hfind, hq]

/-- Concrete instances of `dual_add_preserves_queue_invariants`: on the
demo's `dual_panel_state` (empty, duplicate-free queue), adding an
unknown id leaves the state unchanged with a duplicate-free queue; and
on a state whose queue already holds source item "src-1", adding
"src-1" again leaves the state unchanged. -/
theorem dual_add_preserves_queue_invariants_witness :
    (dual_panel_state.queue.Nodup ∧
      (∀ it ∈ dual_panel_state.items, it.id ≠ "unknown-id") ∧
      (dual_add dual_panel_state "unknown-id").queue.Nodup ∧
      dual_add dual_panel_state "unknown-id" = dual_panel_state) ∧
    (dual_state_queued.items.find?
        (fun i => i.id = "src-1") = some ⟨"src-1", "Source Item 1", ""⟩ ∧
      (⟨"src-1", "Source Item 1", ""⟩ : Item) ∈ dual_state_queued.queue ∧
      dual_add dual_state_queued "src-1" = dual_state_queued) :=
  ⟨⟨by decide, by decide,
      (dual_add_preserves_queue_invariants dual_panel_state
        "unknown-id").1 (by decide),
      (dual_add_preserves_queue_invariants dual_panel_state
        "unknown-id").2.1 (by decide)⟩,
    ⟨by decide, by decide,
      (dual_add_preserves_queue_invariants dual_state_queued "src-1").2.2.1
        ⟨"src-1", "Source Item 1", ""⟩ (by decide) (by decide)⟩⟩

/-- Shifting `mergeAtSpec` under a cons, away from the head. -/
theorem mergeAtSpec_cons (p : Segment) (l : List Segment) (i : Nat)
    (h : 1 ≤ i) : mergeAtSpec (p :: l) (i + 1) = p :: mergeAtSpec l i := by
  obtain ⟨j, rfl⟩ : ∃ j, i = j + 1 := ⟨i - 1, by omega⟩
  simp [mergeAtSpec, List.take_succ_cons, List.drop_succ_cons]

/-- A found first-match position is a valid index. -/
theorem firstMatch_lt_length (sid : String) :
    ∀ (l : List Segment) (j : Nat), firstMatch sid l = some j →
      j < l.length := by
  intro l
  induction l with
  | nil => intro j h; simp [firstMatch] at h
  | cons s rest ih =>
    intro j h
    by_cases hs : s.id = sid
    · simp [firstMatch, hs] at h
      simp
      omega
    · simp [firstMatch, hs] at h
      obtain ⟨j', hj', rfl⟩ := h
      have := ih j' hj'
      simp
      omega

/-- Merging at a valid positive index shortens the list by exactly
one. -/
theorem mergeAtSpec_length (segs : List Segment) (i : Nat) (h1 : 0 < i)
    (h2 : i < segs.length) :
    (mergeAtSpec segs i).length + 1 = segs.length := by
  simp [mergeAtSpec,
    List.getElem?_eq_getElem (show i - 1 < segs.length by omega),
    List.getElem?_eq_getElem h2]
  omega

/-- The loop body of `mode_merge` merges exactly at the first match in
the walked suffix, producing the take/merge/drop decomposition. -/
theorem mode_merge_aux_spec (sid : String) :
    ∀ (rest : List Segment) (prev : Segment),
      mode_merge_aux prev sid rest =
        (firstMatch sid rest).map
          (fun j => (mergeAtSpec (prev :: rest) (j + 1), j)) := by
  intro rest
  induction rest with
  | nil => intro prev; simp [mode_merge_aux, firstMatch]
  | cons s rest' ih =>
    intro prev
    by_cases h : s.id = sid
    · simp [mode_merge_aux, firstMatch, h, mergeAtSpec]
    · simp only [mode_merge_aux, firstMatch, h, if_neg, if_false, ih,
        reduceCtorEq]
      cases hfm : firstMatch sid rest' with
      | none => simp
      | some j =>
        simp [mergeAtSpec_cons prev (s :: rest') (j + 1) (by omega)]

/-- Claim C8 (amended): `mode_merge` merges at the first index `i > 0`
whose segment id equals `segment_id` — even when index 0 also matches —
replacing segments `i-1` and `i` by a single segment that keeps
`i-1`'s id and carries `i-1`'s text, a single space, then `i`'s text,
decreasing the segment count by exactly one and setting the active
segment to `i-1`; when no positive index matches (including when the
only match is at index 0, or there is no match at all), segments and
active segment are left unchanged. -/
theorem mode_merge_correct (ms : ModeState) (segment_id : String) :
    (mode_merge ms segment_id =
      match firstMatchPos ms.segments segment_id with
      | none => ms
      | some i => ⟨mergeAtSpec ms.segments i, i - 1⟩) ∧
    (match firstMatchPos ms.segments segment_id with
     | none => True
     | some i => 0 < i ∧ i < ms.segments.length ∧
        (mergeAtSpec ms.segments i).length + 1 = ms.segments.length) := by
  obtain ⟨segs, active⟩ := ms
  cases segs with
  | nil => simp [mode_merge, firstMatchPos]
  | cons s0 rest =>
    simp only [mode_merge, firstMatchPos]
    rw [mode_merge_aux_spec]
    cases hfm : firstMatch segment_id rest with
    | none => simp
    | some j =>
      have hj := firstMatch_lt_length segment_id rest j hfm
      refine ⟨by simp, by simp, ?_, ?_⟩
      · simp
        omega
      · refine mergeAtSpec_length (s0 :: rest) (j + 1) (by omega) ?_
        simp
        omega

/-- Claim C8 as frozen is false on the code: on a segments list whose
two segments share the id "a", that id matches the segment at index 0,
yet `mode_merge` does not leave the state unchanged — the Python loop's
`i > 0` guard merely skips index 0 and keeps scanning, so it merges at
index 1, dropping the count from 2 to 1. -/
theorem mode_merge_index0_clause_false :
    ((([⟨"a", "x"⟩, ⟨"a", "y"⟩] : List Segment)[0]?).map Segment.id =
      some "a") ∧
    mode_merge ⟨[⟨"a", "x"⟩, ⟨"a", "y"⟩], 0⟩ "a" ≠
      ⟨[⟨"a", "x"⟩, ⟨"a", "y"⟩], 0⟩ ∧
    mode_merge ⟨[⟨"a", "x"⟩, ⟨"a", "y"⟩], 0⟩ "a" = ⟨[⟨"a", "x y"⟩], 0⟩ := by
  decide

end KeyboardNav
